import Mathlib

/-!
Verification of the IPTS stylus module (`src/stylus.c`) against its
natural-language specification.

The C code is shallowly embedded: bytes are `Nat` values `< 256` read from a
`List Nat` (an out-of-range read yields `0`, standing for whatever adjacent
memory holds — the C code never consults the buffer's length, so no result
below depends on the value chosen for such reads except where explicitly
exhibited as a counterexample), machine integers are `Nat`/`Int`, the
`input_*` calls of the Linux input subsystem are recorded as an explicit
event list, and the mutable `ipts_context` fields touched by this module
are threaded as explicit state.

The tilt converter `ipts_math_altitude_azimuth_to_tilt` lives in `math.c`,
which is not part of the sources under verification; every function that
would call it is therefore parametrised by a converter
`conv : Nat → Nat → Int × Int`.
-/

/-- Tool identity reported to the input subsystem: `BTN_TOOL_PEN` /
`BTN_TOOL_RUBBER`. -/
inductive Tool where
  | pen
  | rubber
deriving DecidableEq, Repr, BEq

/-- Absolute axes used by the module: `ABS_X`, `ABS_Y`, `ABS_PRESSURE`,
`ABS_MISC`, `ABS_TILT_X`, `ABS_TILT_Y`. -/
inductive Axis where
  | X
  | Y
  | Pressure
  | Misc
  | TiltX
  | TiltY
deriving DecidableEq, Repr

/-- One call into the input subsystem (the event sink), in the spec's
vocabulary: `input_report_key(_, BTN_TOUCH, v)` is `setTouch`,
`input_report_key(_, tool, v)` is `setActive`,
`input_report_key(_, BTN_STYLUS, v)` is `setButton`,
`input_report_abs` is `setAxis` and `input_sync` is `flush`. -/
inductive Event where
  | setTouch (value : Bool)
  | setActive (tool : Tool) (value : Bool)
  | setButton (value : Bool)
  | setAxis (axis : Axis) (value : Int)
  | flush
deriving DecidableEq, Repr

/-- Modelled from the spec: the mode-byte masks
`IPTS_STYLUS_REPORT_MODE_PROXIMITY` / `TOUCH` / `BUTTON` / `RUBBER` are
declared in `protocol/enums.h`, which is not under `src/`; the spec only
says the four flags are "extracted from a single mode byte via fixed bit
masks", so they are modelled as four distinct single-bit masks. -/
def IPTS_STYLUS_REPORT_MODE_PROXIMITY : Nat := 1

/-- Modelled from the spec: see `IPTS_STYLUS_REPORT_MODE_PROXIMITY`. -/
def IPTS_STYLUS_REPORT_MODE_TOUCH : Nat := 2

/-- Modelled from the spec: see `IPTS_STYLUS_REPORT_MODE_PROXIMITY`. -/
def IPTS_STYLUS_REPORT_MODE_BUTTON : Nat := 4

/-- Modelled from the spec: see `IPTS_STYLUS_REPORT_MODE_PROXIMITY`. -/
def IPTS_STYLUS_REPORT_MODE_RUBBER : Nat := 8

/-- The canonical stylus report (`struct ipts_stylus_report` viewed as a
value): one decoded sample. All fields are unsigned machine integers in
the C code. -/
structure StylusReport where
  mode : Nat
  x : Nat
  y : Nat
  pressure : Nat
  altitude : Nat
  azimuth : Nat
  timestamp : Nat
deriving DecidableEq, Repr

/-- The fields of `struct ipts_context` that the stylus module reads or
writes while handling reports: the tool-state machine's `stylus_tool`,
and the pre-computed wire-format quirk.  `quirks_ntrig` models
`(ipts->quirks & IPTS_QUIRKS_NTRIG_DIGITIZER) != 0` (the mask itself is
declared in `quirks.h`, outside `src/`; only its being set or clear
matters to this module). -/
structure IptsContext where
  stylus_tool : Tool
  quirks_ntrig : Bool
deriving DecidableEq, Repr

/-- The raw buffer handed to the decoder (`struct ipts_touch_data`):
its payload bytes and its sequence id (`data->buffer`). -/
structure IptsTouchData where
  data : List Nat
  buffer : Nat
deriving DecidableEq, Repr

/-- Read the byte at index `i`; reading past the end of the list yields `0`
(the C code performs no bounds check, so such a read is an out-of-bounds
access returning arbitrary adjacent memory, modelled here as `0`). -/
def byteAt (d : List Nat) (i : Nat) : Nat := d.getD i 0

/-- Read a little-endian 16-bit value at byte index `i`. -/
def word16At (d : List Nat) (i : Nat) : Nat := byteAt d i + 256 * byteAt d (i + 1)

/-- The tilt values used for a report: the converter is invoked only when
`report->altitude` is non-zero (`stylus.c` lines 25–30), otherwise the
initial `(0, 0)` is kept. -/
def tiltOf (conv : Nat → Nat → Int × Int) (r : StylusReport) : Int × Int :=
  if r.altitude ≠ 0 then conv r.altitude r.azimuth else (0, 0)

/-- The derived tool identity (`stylus.c` lines 32–35):
`BTN_TOOL_RUBBER` if both the proximity and the rubber flag are set in the
mode byte, else `BTN_TOOL_PEN`. -/
def toolOf (mode : Nat) : Tool :=
  if mode &&& IPTS_STYLUS_REPORT_MODE_PROXIMITY ≠ 0 ∧
     mode &&& IPTS_STYLUS_REPORT_MODE_RUBBER ≠ 0 then
    Tool.rubber
  else
    Tool.pen

/-- The event group emitted for one report once the tool-state machine has
settled on `tool` (`stylus.c` lines 44–56): touch, activation, button, the
four absolute axes, the two tilt axes, and the terminating sync. -/
def report_events (t : Int × Int) (tool : Tool) (r : StylusReport) : List Event :=
  [ Event.setTouch (r.mode &&& IPTS_STYLUS_REPORT_MODE_TOUCH != 0),
    Event.setActive tool (r.mode &&& IPTS_STYLUS_REPORT_MODE_PROXIMITY != 0),
    Event.setButton (r.mode &&& IPTS_STYLUS_REPORT_MODE_BUTTON != 0),
    Event.setAxis Axis.X r.x,
    Event.setAxis Axis.Y r.y,
    Event.setAxis Axis.Pressure r.pressure,
    Event.setAxis Axis.Misc r.timestamp,
    Event.setAxis Axis.TiltX t.1,
    Event.setAxis Axis.TiltY t.2,
    Event.flush ]

/-- `ipts_stylus_handle_report` (`stylus.c` lines 13–57): compute tilt and
tool, fake a proximity-out (deactivation of the previous tool plus a sync)
when the tool changed, update `stylus_tool`, then emit the report's event
group.  Returns the emitted events and the updated context. -/
def ipts_stylus_handle_report (conv : Nat → Nat → Int × Int)
    (ipts : IptsContext) (r : StylusReport) : List Event × IptsContext :=
  let t := tiltOf conv r
  let tool := toolOf r.mode
  if ipts.stylus_tool ≠ tool then
    (Event.setActive ipts.stylus_tool false :: Event.flush ::
       report_events t tool r,
     { ipts with stylus_tool := tool })
  else
    (report_events t tool r, ipts)

/-- Modelled from the spec: the byte layout of `struct ipts_stylus_report`
is declared in `protocol/touch.h`, which is not under `src/`.  The spec
fixes the field list and widths (a mode byte and six 16-bit fields: mode,
x, y, pressure, altitude, azimuth, timestamp); the record is modelled as
those fields packed in that order, little-endian, hence 13 bytes. -/
def STYLUS_REPORT_SIZE : Nat := 13

/-- Modelled from the spec: parse one current-format wire record at byte
offset `base` (see `STYLUS_REPORT_SIZE`). -/
def parse_stylus_record (d : List Nat) (base : Nat) : StylusReport :=
  { mode := byteAt d base,
    x := word16At d (base + 1),
    y := word16At d (base + 3),
    pressure := word16At d (base + 5),
    altitude := word16At d (base + 7),
    azimuth := word16At d (base + 9),
    timestamp := word16At d (base + 11) }

/-- Modelled from the spec: the byte layout of
`struct ipts_stylus_report_ntrig` is declared in `protocol/touch.h`, which
is not under `src/`.  The spec fixes its field list (mode, x, y, pressure;
no altitude/azimuth/timestamp fields); it is modelled as a mode byte and
three little-endian 16-bit fields, hence 7 bytes. -/
def NTRIG_REPORT_SIZE : Nat := 7

/-- The canonical report built from one legacy (NTRIG) wire record at byte
offset `base` (`stylus.c` lines 70–80): mode, x, y, pressure are copied
from the record, the NTRIG digitizers support no tilt so altitude and
azimuth are zero, and the buffer id stands in for the timestamp. -/
def ntrig_to_canonical (seqId : Nat) (d : List Nat) (base : Nat) : StylusReport :=
  { mode := byteAt d base,
    x := word16At d (base + 1),
    y := word16At d (base + 3),
    pressure := word16At d (base + 5),
    altitude := 0,
    azimuth := 0,
    timestamp := seqId }

/-- Byte offset of the first wire record for each format
(`stylus.c` lines 67 and 98). -/
def record_offset (ntrig : Bool) : Nat := if ntrig then 44 else 40

/-- Size in bytes of one wire record for each format (modelled, see
`STYLUS_REPORT_SIZE` and `NTRIG_REPORT_SIZE`). -/
def record_size (ntrig : Bool) : Nat :=
  if ntrig then NTRIG_REPORT_SIZE else STYLUS_REPORT_SIZE

/-- The canonical report decoded from the `i`-th wire record of `data`
under the given format. -/
def record_at (ntrig : Bool) (data : IptsTouchData) (i : Nat) : StylusReport :=
  if ntrig then
    ntrig_to_canonical data.buffer data.data (44 + i * NTRIG_REPORT_SIZE)
  else
    parse_stylus_record data.data (40 + i * STYLUS_REPORT_SIZE)

/-- The decode phase of `ipts_stylus_parse_report` /
`ipts_stylus_parse_report_ntrig`: the loops at `stylus.c` lines 69–83 and
100–101 read the count byte at offset 32 and visit records `0, …, count-1`
in order; record parsing is pure, so the sequence of canonical reports the
loop feeds to `ipts_stylus_handle_report` is this list.  No bound involving
the buffer's length appears anywhere in the C code. -/
def decoded_reports (ntrig : Bool) (data : IptsTouchData) : List StylusReport :=
  (List.range (byteAt data.data 32)).map (record_at ntrig data)

/-- The emit phase shared by both parse loops: handle each decoded report
in order, threading the context, concatenating the emitted events. -/
def emit_all (conv : Nat → Nat → Int × Int) (ipts : IptsContext) :
    List StylusReport → List Event × IptsContext
  | [] => ([], ipts)
  | r :: rs =>
    let p := ipts_stylus_handle_report conv ipts r
    let q := emit_all conv p.2 rs
    (p.1 ++ q.1, q.2)

/-- `ipts_stylus_parse_report_ntrig` (`stylus.c` lines 59–84). -/
def ipts_stylus_parse_report_ntrig (conv : Nat → Nat → Int × Int)
    (ipts : IptsContext) (data : IptsTouchData) : List Event × IptsContext :=
  emit_all conv ipts (decoded_reports true data)

/-- `ipts_stylus_parse_report` (`stylus.c` lines 86–102): dispatch on the
NTRIG quirk, then decode and handle `count` records. -/
def ipts_stylus_parse_report (conv : Nat → Nat → Int × Int)
    (ipts : IptsContext) (data : IptsTouchData) : List Event × IptsContext :=
  if ipts.quirks_ntrig then
    ipts_stylus_parse_report_ntrig conv ipts data
  else
    emit_all conv ipts (decoded_reports false data)

/-- The declared pressure-axis maximum (`stylus.c` lines 113–115): 4096,
or 1024 for the NTRIG digitizers. -/
def pressure_max (ntrig : Bool) : Nat := if ntrig then 1024 else 4096

/-- Calls into the sink's device-lifecycle interface
(`input_allocate_device`, `input_register_device`, `input_free_device`,
`input_unregister_device`). -/
inductive SinkCall where
  | allocate
  | register
  | freeDev
  | unregister
deriving DecidableEq, Repr

/-- `ENOMEM`, the errno returned when device allocation fails. -/
def ENOMEM : Int := 12

/-- Outcome of `ipts_stylus_init`: its return value, the sequence of
sink-lifecycle calls it made in order, whether a sink-side device resource
is still live (allocated and not freed) at return, and the session's
`stylus_tool` state if it was set. -/
structure InitOutcome where
  ret : Int
  calls : List SinkCall
  live : Bool
  tool : Option Tool
deriving DecidableEq, Repr

/-- `ipts_stylus_init` (`stylus.c` lines 104–154).  Modelled from the spec
where it calls the sink: the input-subsystem functions are external to
`src/`, so the outcome of allocation (`allocOk`) and registration
(`regRet`, `0` meaning success) are parameters, and the capability /
axis-range setup calls, which touch only the allocated device, are not
recorded.  The control flow is that of the C code: allocation failure
returns `-ENOMEM`; `stylus_tool` is set to `BTN_TOOL_PEN`; registration
failure frees the allocated device and propagates the sink's error code;
otherwise `0` is returned with the device registered and live. -/
def ipts_stylus_init (allocOk : Bool) (regRet : Int) : InitOutcome :=
  if !allocOk then
    { ret := -ENOMEM, calls := [SinkCall.allocate], live := false, tool := none }
  else if regRet ≠ 0 then
    { ret := regRet,
      calls := [SinkCall.allocate, SinkCall.register, SinkCall.freeDev],
      live := false,
      tool := some Tool.pen }
  else
    { ret := 0,
      calls := [SinkCall.allocate, SinkCall.register],
      live := true,
      tool := some Tool.pen }

/-- `ipts_stylus_free` (`stylus.c` lines 156–162): `ipts->stylus` is a
pointer, modelled as `Option Unit`; a null pointer returns immediately
with no sink call, otherwise the device is unregistered. -/
def ipts_stylus_free (stylus : Option Unit) : List SinkCall :=
  match stylus with
  | none => []
  | some _ => [SinkCall.unregister]

/-- Does this event reference (carry) the given tool identity? Only
activation events name a tool. -/
def Event.mentionsTool : Event → Tool → Bool
  | Event.setActive t _, u => decide (t = u)
  | _, _ => false

/-! ### Helper lemmas -/

/-- The decode phase always yields exactly as many canonical reports as the
count byte at offset 32 declares, for either wire format; no dependence on
the buffer's length. -/
theorem decoded_reports_length (ntrig : Bool) (data : IptsTouchData) :
    (decoded_reports ntrig data).length = byteAt data.data 32 := by
  simp [decoded_reports]

/-- The `i`-th decoded canonical report comes from the `i`-th wire record. -/
theorem decoded_reports_getElem (ntrig : Bool) (data : IptsTouchData) (i : Nat)
    (h : i < byteAt data.data 32) :
    (decoded_reports ntrig data)[i]? = some (record_at ntrig data i) := by
  simp [decoded_reports, List.getElem?_map, List.getElem?_range, h]

/-- Membership in the decoded sequence means being one of the first `count`
wire records. -/
theorem mem_decoded_reports (ntrig : Bool) (data : IptsTouchData)
    (r : StylusReport) (h : r ∈ decoded_reports ntrig data) :
    ∃ i, i < byteAt data.data 32 ∧ r = record_at ntrig data i := by
  simp only [decoded_reports, List.mem_map, List.mem_range] at h
  obtain ⟨i, hi, hr⟩ := h
  exact ⟨i, hi, hr.symm⟩

/-- Handling a report when no count is pending: `emit_all` on the empty
report list emits nothing and keeps the context. -/
theorem emit_all_nil (conv : Nat → Nat → Int × Int) (ipts : IptsContext) :
    emit_all conv ipts [] = ([], ipts) := rfl

/-- Every event emitted by `emit_all` is emitted by
`ipts_stylus_handle_report` on one of the reports of the list (from some
intermediate context state). -/
theorem mem_emit_all (conv : Nat → Nat → Int × Int) (e : Event) :
    ∀ (rs : List StylusReport) (ipts : IptsContext),
      e ∈ (emit_all conv ipts rs).1 →
      ∃ r, r ∈ rs ∧ ∃ s, e ∈ (ipts_stylus_handle_report conv s r).1 := by
  intro rs
  induction rs with
  | nil => intro ipts h; simp [emit_all] at h
  | cons r rs ih =>
    intro ipts h
    simp only [emit_all, List.mem_append] at h
    rcases h with h | h
    · exact ⟨r, List.mem_cons_self r rs, ipts, h⟩
    · obtain ⟨r2, hr2, s, hs⟩ := ih _ h
      exact ⟨r2, List.mem_cons_of_mem r hr2, s, hs⟩

/-- A Pressure-axis event emitted while handling a report carries exactly
the report's pressure field: the value is passed through unchanged. -/
theorem pressure_event_eq (conv : Nat → Nat → Int × Int) (ipts : IptsContext)
    (r : StylusReport) (v : Int)
    (h : Event.setAxis Axis.Pressure v ∈ (ipts_stylus_handle_report conv ipts r).1) :
    v = (r.pressure : Int) := by
  by_cases hc : ipts.stylus_tool = toolOf r.mode <;>
    simp [ipts_stylus_handle_report, hc, report_events] at h <;> omega

/-! ### Concrete inputs used by witnesses and counterexamples -/

/-- A trivial tilt converter used to instantiate the converter parameter. -/
def convZero : Nat → Nat → Int × Int := fun _ _ => (0, 0)

/-- A second, different tilt converter, to exhibit converter-independence. -/
def convOne : Nat → Nat → Int × Int := fun _ _ => (1, 1)

/-- A fresh current-format session: `Pen`-active, NTRIG quirk clear. -/
def ctxPen : IptsContext := { stylus_tool := Tool.pen, quirks_ntrig := false }

/-- A report whose mode byte has the proximity and rubber flags set. -/
def rubberReport : StylusReport :=
  { mode := 9, x := 0, y := 0, pressure := 0, altitude := 0, azimuth := 0,
    timestamp := 0 }

/-! ### Claim theorems -/

/-- C5: for every mode byte, the derived tool identity is `Eraser`
(`BTN_TOOL_RUBBER`) if and only if both the proximity and the rubber flag
are set; in every other case it is `Pen` (`BTN_TOOL_PEN`). -/
theorem C5_tool_identity (mode : Nat) :
    (toolOf mode = Tool.rubber ↔
      (mode &&& IPTS_STYLUS_REPORT_MODE_PROXIMITY ≠ 0 ∧
       mode &&& IPTS_STYLUS_REPORT_MODE_RUBBER ≠ 0))
    ∧ (toolOf mode = Tool.pen ↔
      ¬(mode &&& IPTS_STYLUS_REPORT_MODE_PROXIMITY ≠ 0 ∧
        mode &&& IPTS_STYLUS_REPORT_MODE_RUBBER ≠ 0)) := by
  by_cases h : mode &&& IPTS_STYLUS_REPORT_MODE_PROXIMITY ≠ 0 ∧
      mode &&& IPTS_STYLUS_REPORT_MODE_RUBBER ≠ 0 <;>
    simp [toolOf, h]

/-- C2: handling a current-format report `{mode = proximity|touch, x=100,
y=200, pressure=50, altitude=0, azimuth=0}` in a `Pen`-active session
emits exactly, in this order: `SetTouch(true)`, `SetActive(Pen,true)`,
`SetButton(false)`, `SetAxis(X,100)`, `SetAxis(Y,200)`,
`SetAxis(Pressure,50)`, `SetAxis(Misc,timestamp)`, `SetAxis(TiltX,0)`,
`SetAxis(TiltY,0)`, `Flush` — with no leading deactivation/flush pair and
an unchanged session, for every converter, quirk setting and timestamp. -/
theorem C2_end_to_end (conv : Nat → Nat → Int × Int) (q : Bool) (ts : Nat) :
    ipts_stylus_handle_report conv { stylus_tool := Tool.pen, quirks_ntrig := q }
      { mode := IPTS_STYLUS_REPORT_MODE_PROXIMITY ||| IPTS_STYLUS_REPORT_MODE_TOUCH,
        x := 100, y := 200, pressure := 50, altitude := 0, azimuth := 0,
        timestamp := ts } =
    ([ Event.setTouch true, Event.setActive Tool.pen true, Event.setButton false,
       Event.setAxis Axis.X 100, Event.setAxis Axis.Y 200,
       Event.setAxis Axis.Pressure 50, Event.setAxis Axis.Misc ts,
       Event.setAxis Axis.TiltX 0, Event.setAxis Axis.TiltY 0, Event.flush ],
     { stylus_tool := Tool.pen, quirks_ntrig := q }) := by
  have hm : IPTS_STYLUS_REPORT_MODE_PROXIMITY ||| IPTS_STYLUS_REPORT_MODE_TOUCH = 3 := by
    decide
  have htool : toolOf 3 = Tool.pen := by decide
  have h1 : ((3 : Nat) &&& IPTS_STYLUS_REPORT_MODE_PROXIMITY != 0) = true := by decide
  have h2 : ((3 : Nat) &&& IPTS_STYLUS_REPORT_MODE_TOUCH != 0) = true := by decide
  have h4 : ((3 : Nat) &&& IPTS_STYLUS_REPORT_MODE_BUTTON != 0) = false := by decide
  simp [ipts_stylus_handle_report, tiltOf, hm, htool, report_events, h1, h2, h4]

/-- C9: if the sink rejects device registration, `ipts_stylus_init`
propagates the sink's error code, having freed the allocated device first,
so no sink-side resource is left live; on successful registration it
returns `0` with the session's active tool set to `Pen`. -/
theorem C9_init_registration (regRet : Int) :
    (regRet ≠ 0 →
      ipts_stylus_init true regRet =
        { ret := regRet,
          calls := [SinkCall.allocate, SinkCall.register, SinkCall.freeDev],
          live := false, tool := some Tool.pen })
    ∧ ipts_stylus_init true 0 =
        { ret := 0, calls := [SinkCall.allocate, SinkCall.register],
          live := true, tool := some Tool.pen } := by
  constructor
  · intro h
    simp [ipts_stylus_init, h]
  · rfl

/-- Witness for C9 at the concrete registration error code `5`. -/
theorem C9_init_registration_witness :
    ipts_stylus_init true 5 =
      { ret := 5, calls := [SinkCall.allocate, SinkCall.register, SinkCall.freeDev],
        live := false, tool := some Tool.pen } :=
  (C9_init_registration 5).1 (by decide)

/-- C10: `ipts_stylus_free` with a null device pointer returns immediately
and performs no sink call at all; with a live device it unregisters it. -/
theorem C10_free_null_noop :
    ipts_stylus_free none = []
    ∧ ∀ d : Unit, ipts_stylus_free (some d) = [SinkCall.unregister] :=
  ⟨rfl, fun _ => rfl⟩

/-- The seven events of a report's group that precede the two tilt events
and the final flush. -/
def head_events (tool : Tool) (r : StylusReport) : List Event :=
  [ Event.setTouch (r.mode &&& IPTS_STYLUS_REPORT_MODE_TOUCH != 0),
    Event.setActive tool (r.mode &&& IPTS_STYLUS_REPORT_MODE_PROXIMITY != 0),
    Event.setButton (r.mode &&& IPTS_STYLUS_REPORT_MODE_BUTTON != 0),
    Event.setAxis Axis.X r.x,
    Event.setAxis Axis.Y r.y,
    Event.setAxis Axis.Pressure r.pressure,
    Event.setAxis Axis.Misc r.timestamp ]

/-- A report's event group is its head events followed by the two tilt
events and the flush. -/
theorem report_events_decomp (t : Int × Int) (tool : Tool) (r : StylusReport) :
    report_events t tool r =
      head_events tool r ++
        [Event.setAxis Axis.TiltX t.1, Event.setAxis Axis.TiltY t.2, Event.flush] := rfl

/-- C3: whenever the derived tool of a report differs from the session's
active tool, the emitted sequence starts with a deactivation of the
previous active tool immediately followed by a flush — two events that do
not reference the new tool — all events of the current report follow that
pair, and the session's active tool becomes the new tool; when the derived
tool equals the active tool, no such pair is emitted and the session state
is unchanged. -/
theorem C3_tool_switch (conv : Nat → Nat → Int × Int) (ipts : IptsContext)
    (r : StylusReport) :
    (ipts.stylus_tool ≠ toolOf r.mode →
      ipts_stylus_handle_report conv ipts r =
        (Event.setActive ipts.stylus_tool false :: Event.flush ::
           report_events (tiltOf conv r) (toolOf r.mode) r,
         { ipts with stylus_tool := toolOf r.mode })
      ∧ ∀ e ∈ [Event.setActive ipts.stylus_tool false, Event.flush],
          e.mentionsTool (toolOf r.mode) = false)
    ∧ (ipts.stylus_tool = toolOf r.mode →
      ipts_stylus_handle_report conv ipts r =
        (report_events (tiltOf conv r) (toolOf r.mode) r, ipts)) := by
  constructor
  · intro h
    constructor
    · simp [ipts_stylus_handle_report, h]
    · intro e he
      simp only [List.mem_cons, List.not_mem_nil, or_false] at he
      rcases he with rfl | rfl
      · simp [Event.mentionsTool, h]
      · simp [Event.mentionsTool]
  · intro h
    simp [ipts_stylus_handle_report, h]

/-- Witness for C3: a rubber-mode report against a fresh `Pen`-active
session produces the deactivation of `Pen` and a flush first, then the
report's events, and switches the session to `Eraser`. -/
theorem C3_tool_switch_witness :
    ipts_stylus_handle_report convZero ctxPen rubberReport =
      (Event.setActive Tool.pen false :: Event.flush ::
         report_events (tiltOf convZero rubberReport) Tool.rubber rubberReport,
       { stylus_tool := Tool.rubber, quirks_ntrig := false }) := by
  have h := (C3_tool_switch convZero ctxPen rubberReport).1 (by decide)
  exact h.1

/-- C4: when a report's altitude is zero the emitted tilt values are
exactly `(0, 0)` — the event group ends with `SetAxis(TiltX,0)`,
`SetAxis(TiltY,0)`, `Flush` — and the tilt converter is not invoked: the
result of handling the report is the same for every converter. -/
theorem C4_zero_altitude (conv conv2 : Nat → Nat → Int × Int)
    (ipts : IptsContext) (r : StylusReport) (h : r.altitude = 0) :
    ipts_stylus_handle_report conv ipts r = ipts_stylus_handle_report conv2 ipts r
    ∧ ∃ l, (ipts_stylus_handle_report conv ipts r).1 =
        l ++ [Event.setAxis Axis.TiltX 0, Event.setAxis Axis.TiltY 0, Event.flush] := by
  have ht : ∀ c : Nat → Nat → Int × Int, tiltOf c r = (0, 0) := by
    intro c
    simp [tiltOf, h]
  constructor
  · simp [ipts_stylus_handle_report, ht]
  · by_cases hc : ipts.stylus_tool = toolOf r.mode
    · exact ⟨head_events (toolOf r.mode) r, by
        simp [ipts_stylus_handle_report, hc, ht, report_events_decomp]⟩
    · exact ⟨Event.setActive ipts.stylus_tool false :: Event.flush ::
          head_events (toolOf r.mode) r, by
        simp [ipts_stylus_handle_report, hc, ht, report_events_decomp]⟩

/-- Witness for C4 at a concrete zero-altitude report and two different
converters. -/
theorem C4_zero_altitude_witness :
    ipts_stylus_handle_report convZero ctxPen rubberReport =
      ipts_stylus_handle_report convOne ctxPen rubberReport
    ∧ ∃ l, (ipts_stylus_handle_report convZero ctxPen rubberReport).1 =
        l ++ [Event.setAxis Axis.TiltX 0, Event.setAxis Axis.TiltY 0, Event.flush] :=
  C4_zero_altitude convZero convOne ctxPen rubberReport rfl

/-- A 33-byte buffer declaring 5 reports but containing no record bytes:
its count implies reading far past its end for either layout. -/
def shortTouchData : IptsTouchData :=
  { data := List.replicate 32 0 ++ [5], buffer := 7 }

/-- A 33-byte all-zero buffer: its count byte at offset 32 is `0`. -/
def emptyTouchData : IptsTouchData :=
  { data := List.replicate 33 0, buffer := 0 }

/-- A legacy-format buffer with one record at offset 44:
mode 3, x 10, y 20, pressure 30; sequence id 42. -/
def ntrigTouchData : IptsTouchData :=
  { data := List.replicate 32 0 ++ [1] ++ List.replicate 11 0 ++
      [3, 10, 0, 20, 0, 30, 0],
    buffer := 42 }

/-- C7: for every buffer and either wire format, decode yields exactly
`count` canonical reports (the byte at offset 32), the `i`-th being the
`i`-th wire record's; and with `count = 0` the whole parse emits no event
and leaves the session unchanged. -/
theorem C7_count_reports (ntrig : Bool) (conv : Nat → Nat → Int × Int)
    (ipts : IptsContext) (data : IptsTouchData) :
    (decoded_reports ntrig data).length = byteAt data.data 32
    ∧ (∀ i, i < byteAt data.data 32 →
        (decoded_reports ntrig data)[i]? = some (record_at ntrig data i))
    ∧ (byteAt data.data 32 = 0 →
        ipts_stylus_parse_report conv ipts data = ([], ipts)) := by
  refine ⟨decoded_reports_length ntrig data,
    fun i hi => decoded_reports_getElem ntrig data i hi, fun h0 => ?_⟩
  have hd : ∀ b : Bool, decoded_reports b data = [] := by
    intro b
    simp [decoded_reports, h0]
  cases hq : ipts.quirks_ntrig <;>
    simp [ipts_stylus_parse_report, ipts_stylus_parse_report_ntrig, hq, hd,
      emit_all]

/-- Witness for C7: the zero-count buffer parses to no events with the
session unchanged, and the first decoded report of a non-empty buffer is
its first wire record. -/
theorem C7_count_reports_witness :
    ipts_stylus_parse_report convZero ctxPen emptyTouchData = ([], ctxPen)
    ∧ (decoded_reports false shortTouchData)[0]? =
        some (record_at false shortTouchData 0) :=
  ⟨(C7_count_reports false convZero ctxPen emptyTouchData).2.2 (by decide),
   (C7_count_reports false convZero ctxPen shortTouchData).2.1 0 (by decide)⟩

/-- C6: under the legacy (NTRIG) format, decode takes the count from
offset 32 and the records from offset 44; the `i`-th canonical report
copies mode, x, y, pressure from the wire record and synthesizes
altitude `0`, azimuth `0` and the caller's buffer sequence id as
timestamp; every decoded report of such a buffer has those synthesized
values. -/
theorem C6_legacy_decode (data : IptsTouchData) :
    (decoded_reports true data).length = byteAt data.data 32
    ∧ (∀ i, i < byteAt data.data 32 →
        (decoded_reports true data)[i]? = some
          { mode := byteAt data.data (44 + i * NTRIG_REPORT_SIZE),
            x := word16At data.data (44 + i * NTRIG_REPORT_SIZE + 1),
            y := word16At data.data (44 + i * NTRIG_REPORT_SIZE + 3),
            pressure := word16At data.data (44 + i * NTRIG_REPORT_SIZE + 5),
            altitude := 0, azimuth := 0, timestamp := data.buffer })
    ∧ (∀ r ∈ decoded_reports true data,
        r.altitude = 0 ∧ r.azimuth = 0 ∧ r.timestamp = data.buffer) := by
  refine ⟨decoded_reports_length true data, fun i hi => ?_, fun r hr => ?_⟩
  · rw [decoded_reports_getElem true data i hi]
    rfl
  · obtain ⟨i, hi, rfl⟩ := mem_decoded_reports true data r hr
    simp [record_at, ntrig_to_canonical]

/-- Witness for C6 on a concrete one-record legacy buffer. -/
theorem C6_legacy_decode_witness :
    (decoded_reports true ntrigTouchData)[0]? = some
      { mode := 3, x := 10, y := 20, pressure := 30,
        altitude := 0, azimuth := 0, timestamp := 42 }
    ∧ ((record_at true ntrigTouchData 0).altitude = 0
        ∧ (record_at true ntrigTouchData 0).azimuth = 0
        ∧ (record_at true ntrigTouchData 0).timestamp = ntrigTouchData.buffer) :=
  ⟨by
    have h := (C6_legacy_decode ntrigTouchData).2.1 0 (by decide)
    exact h.trans (by decide),
   (C6_legacy_decode ntrigTouchData).2.2 (record_at true ntrigTouchData 0)
     (by decide)⟩

/-- Handling a report always emits at least one event (the report's
event group is never empty). -/
theorem handle_report_ne_nil (conv : Nat → Nat → Int × Int)
    (ipts : IptsContext) (r : StylusReport) :
    (ipts_stylus_handle_report conv ipts r).1 ≠ [] := by
  by_cases hc : ipts.stylus_tool = toolOf r.mode <;>
    simp [ipts_stylus_handle_report, hc, report_events]

/-- `emit_all` on a non-empty report list emits at least one event. -/
theorem emit_all_ne_nil (conv : Nat → Nat → Int × Int) (ipts : IptsContext)
    (r : StylusReport) (rs : List StylusReport) :
    (emit_all conv ipts (r :: rs)).1 ≠ [] := by
  intro hx
  simp only [emit_all] at hx
  rw [List.append_eq_nil] at hx
  exact handle_report_ne_nil conv ipts r hx.1

/-- Whenever the count byte is non-zero, the parse entry point emits
events — it never refuses a buffer. -/
theorem parse_report_ne_nil (conv : Nat → Nat → Int × Int)
    (ipts : IptsContext) (data : IptsTouchData)
    (h : byteAt data.data 32 ≠ 0) :
    (ipts_stylus_parse_report conv ipts data).1 ≠ [] := by
  have hcons : ∀ b : Bool, ∃ r rs, decoded_reports b data = r :: rs := by
    intro b
    rcases hd : decoded_reports b data with _ | ⟨r, rs⟩
    · have := decoded_reports_length b data
      rw [hd] at this
      exact absurd this.symm h
    · exact ⟨r, rs, rfl⟩
  cases hq : ipts.quirks_ntrig <;>
    simp only [ipts_stylus_parse_report, ipts_stylus_parse_report_ntrig, hq,
      if_true, if_false, Bool.false_eq_true, Bool.true_eq_false]
  · obtain ⟨r, rs, hd⟩ := hcons false
    rw [hd]
    exact emit_all_ne_nil conv ipts r rs
  · obtain ⟨r, rs, hd⟩ := hcons true
    rw [hd]
    exact emit_all_ne_nil conv ipts r rs

/-- Counterexample to C1 as stated: `shortTouchData` declares 5 reports
though reading even one record would run past its 33 bytes; yet decode
does not fail — there is no `MalformedBuffer` outcome in the code — it
yields 5 reports and the parse emits events. -/
theorem C1_counterexample :
    shortTouchData.data.length <
      record_offset false + byteAt shortTouchData.data 32 * record_size false
    ∧ (decoded_reports false shortTouchData).length = 5
    ∧ (ipts_stylus_parse_report convZero ctxPen shortTouchData).1 ≠ [] := by
  decide

/-- C1 as amended: the decoder performs no bounds check.  Even for a
buffer whose declared count implies reading past its actual length, decode
yields exactly `count` canonical reports (out-of-range bytes standing for
whatever adjacent memory holds) and, when the count is non-zero, the parse
emits events; no failure is reported. -/
theorem C1_no_bounds_check (ntrig : Bool) (conv : Nat → Nat → Int × Int)
    (ipts : IptsContext) (data : IptsTouchData)
    (_oob : data.data.length <
      record_offset ntrig + byteAt data.data 32 * record_size ntrig) :
    (decoded_reports ntrig data).length = byteAt data.data 32
    ∧ (byteAt data.data 32 ≠ 0 →
        (ipts_stylus_parse_report conv ipts data).1 ≠ []) :=
  ⟨decoded_reports_length ntrig data,
   fun h0 => parse_report_ne_nil conv ipts data h0⟩

/-- Witness for the amended C1 at the concrete short buffer. -/
theorem C1_no_bounds_check_witness :
    shortTouchData.data.length <
      record_offset false + byteAt shortTouchData.data 32 * record_size false
    ∧ byteAt shortTouchData.data 32 ≠ 0
    ∧ (decoded_reports false shortTouchData).length = byteAt shortTouchData.data 32
    ∧ (ipts_stylus_parse_report convZero ctxPen shortTouchData).1 ≠ [] :=
  ⟨by decide, by decide,
   (C1_no_bounds_check false convZero ctxPen shortTouchData (by decide)).1,
   (C1_no_bounds_check false convZero ctxPen shortTouchData (by decide)).2
     (by decide)⟩

/-- A current-format buffer with one record whose pressure field holds
5000, above the declared current-format maximum of 4096. -/
def pressureTouchData : IptsTouchData :=
  { data := List.replicate 32 0 ++ [1] ++ List.replicate 7 0 ++
      [3, 0, 0, 0, 0, 136, 19, 0, 0, 0, 0, 0, 0],
    buffer := 0 }

/-- A current-format buffer with one record whose pressure field holds
50, within the declared maximum. -/
def okTouchData : IptsTouchData :=
  { data := List.replicate 32 0 ++ [1] ++ List.replicate 7 0 ++
      [3, 0, 0, 0, 0, 50, 0, 0, 0, 0, 0, 0, 0],
    buffer := 0 }

/-- Counterexample to C8 as stated: a current-format session delivers the
Pressure-axis value 5000, which exceeds the declared current-format
maximum 4096 — nothing in the code clamps or rejects the wire value. -/
theorem C8_counterexample :
    Event.setAxis Axis.Pressure 5000 ∈
      (ipts_stylus_parse_report convZero ctxPen pressureTouchData).1
    ∧ pressure_max ctxPen.quirks_ntrig = 4096
    ∧ (4096 : Int) < 5000 := by
  decide

/-- C8 as amended: the Pressure-axis value delivered for a report is
always exactly the decoded report's pressure field (pass-through, no
clamping), so a session's emitted pressure never exceeds the wire-format
maximum (1024 legacy, 4096 current) provided every decoded report of the
buffer is within that maximum. -/
theorem C8_pressure_passthrough (conv : Nat → Nat → Int × Int)
    (ipts : IptsContext) (data : IptsTouchData) :
    (∀ v : Int, Event.setAxis Axis.Pressure v ∈
        (ipts_stylus_parse_report conv ipts data).1 →
      ∃ r, r ∈ decoded_reports ipts.quirks_ntrig data ∧ v = (r.pressure : Int))
    ∧ ((∀ r ∈ decoded_reports ipts.quirks_ntrig data,
          r.pressure ≤ pressure_max ipts.quirks_ntrig) →
        ∀ v : Int, Event.setAxis Axis.Pressure v ∈
            (ipts_stylus_parse_report conv ipts data).1 →
          v ≤ (pressure_max ipts.quirks_ntrig : Int)) := by
  have hev : (ipts_stylus_parse_report conv ipts data).1 =
      (emit_all conv ipts (decoded_reports ipts.quirks_ntrig data)).1 := by
    cases hq : ipts.quirks_ntrig <;>
      simp [ipts_stylus_parse_report, ipts_stylus_parse_report_ntrig, hq]
  have key : ∀ v : Int, Event.setAxis Axis.Pressure v ∈
      (ipts_stylus_parse_report conv ipts data).1 →
      ∃ r, r ∈ decoded_reports ipts.quirks_ntrig data ∧ v = (r.pressure : Int) := by
    intro v hv
    rw [hev] at hv
    obtain ⟨r, hr, s, hs⟩ := mem_emit_all conv _ _ ipts hv
    exact ⟨r, hr, pressure_event_eq conv s r v hs⟩
  refine ⟨key, fun hb v hv => ?_⟩
  obtain ⟨r, hr, rfl⟩ := key v hv
  exact_mod_cast hb r hr

/-- Witness for the amended C8: a concrete in-range buffer satisfies the
bound hypothesis and the concrete emitted pressure 50 is within 4096. -/
theorem C8_pressure_passthrough_witness :
    (∀ r ∈ decoded_reports ctxPen.quirks_ntrig okTouchData,
      r.pressure ≤ pressure_max ctxPen.quirks_ntrig)
    ∧ (50 : Int) ≤ (pressure_max ctxPen.quirks_ntrig : Int) :=
  ⟨by decide,
   (C8_pressure_passthrough convZero ctxPen okTouchData).2 (by decide) 50
     (by decide)⟩
